import Mathlib

/-!
Shallow embedding of `src/robothub_depthai/manager.py` (class `DeviceManager`).

The manager keeps a registry of `Device`s (`self._devices`), a pool of live
`HubCamera` handles (`self._hub_cameras`), a `running` flag, a
`connecting_to_device` flag and a `stop_event`.  Three loops (`_connect`,
`_poll`, `_report`) run against this shared state.  External collaborators
(`device._start`, `camera.poll`, the telemetry agent, stream teardown, …) are
modelled by an `Env` of response functions; callback invocations and other
externally visible actions are recorded as an `Event` trace.
-/

namespace RobotHubDepthAI

/-- Lifecycle state (`robothub.DeviceState`) as used by `DeviceManager.stop` (only the
`DISCONNECTED` test matters; every other state is collapsed into
`connected`). -/
inductive DeviceState where
  | connected
  | disconnected
  deriving DecidableEq, Repr

/-- A registry entry (`robothub_depthai.Device`).  `mxid` is the device id;
`tag` models Python object identity, so two distinct `Device` objects may
share an `mxid`. -/
structure Device where
  mxid : String
  tag : Nat
  deriving DecidableEq, Repr

/-- A live runtime handle (`HubCamera`).  `token` models Python object
identity: `HubCamera(device_mxid=...)` constructs a fresh object each time. -/
structure HubCamera where
  deviceMxid : String
  token : Nat
  deriving DecidableEq, Repr

/-- Result of `device._start(hub_camera)`: it returns a boolean, or raises. -/
inductive StartOutcome where
  | ok
  | fail
  | raise (msg : String)
  deriving DecidableEq, Repr

/-- Responses of all external collaborators the manager calls into. -/
structure Env where
  /-- Models `device._start(hub_camera)` (manager.py line 152). -/
  startResult : Device → StartOutcome
  /-- Models `camera.poll()` (line 125). -/
  pollResult : HubCamera → Bool
  /-- Models `camera.info_report()` (line 109); may raise. -/
  infoReport : HubCamera → Except String String
  /-- Models `camera.stats_report()` (line 110); may raise. -/
  statsReport : HubCamera → Except String String
  /-- Models `robothub.AGENT.publish_device_info` (line 112); may raise. -/
  publishInfo : String → Except String Unit
  /-- Models `robothub.AGENT.publish_device_stats` (line 113); may raise. -/
  publishStats : String → Except String Unit
  /-- Models `robothub.STREAMS.destroy_all_streams()` (line 74); may raise. -/
  destroyStreams : Except String Unit
  /-- Models `camera.oak_camera.__exit__(...)` (line 83); may raise. -/
  exitResult : HubCamera → Except String Unit
  /-- Models `camera.state` as read at shutdown (line 80). -/
  cameraState : HubCamera → DeviceState

/-- Externally visible actions recorded while running the manager's code. -/
inductive Event where
  /-- Records a `self.stop_event.wait(...)` boundary of a loop. -/
  | waitEv
  /-- Records that `camera.poll()` was invoked on this handle. -/
  | pollCall (c : HubCamera)
  /-- Records that `camera.stop()` / `hub_camera.stop()` was invoked. -/
  | cameraStop (c : HubCamera)
  /-- Records that `hub_camera.start()` was invoked (line 156). -/
  | cameraStart (c : HubCamera)
  /-- the handle was appended to `self._hub_cameras` (line 159). -/
  | poolInsert (c : HubCamera)
  /-- Records that `device.connect_callback(hub_camera)` was invoked (line 158). -/
  | connectCallback (d : Device) (c : HubCamera)
  /-- Records that `device.disconnect_callback(device)` was invoked (line 171). -/
  | disconnectCallback (d : Device)
  /-- Records that `publish_device_info(...)` succeeded for this handle. -/
  | publishedInfo (c : HubCamera) (info : String)
  /-- Records that `publish_device_stats(...)` succeeded for this handle. -/
  | publishedStats (c : HubCamera) (stats : String)
  /-- Records the `log.debug(...)` of a caught per-camera error (line 115). -/
  | logError (mxid : String) (msg : String)
  /-- Records that `camera.oak_camera.__exit__(...)` succeeded at shutdown (line 83). -/
  | cameraExit (c : HubCamera)
  deriving DecidableEq, Repr

/-- The shared mutable state of `DeviceManager`.

`nextToken` is a fresh-object counter backing `HubCamera(...)` construction;
it has no counterpart in the Python state but only serves object identity. -/
structure ManagerState where
  devices : List Device
  hubCameras : List HubCamera
  running : Bool
  connectingToDevice : Bool
  stopEventSet : Bool
  nextToken : Nat
  deriving DecidableEq, Repr

/-- The state built by `DeviceManager.__init__` (lines 25-35). -/
def initialState : ManagerState :=
  { devices := [], hubCameras := [], running := false,
    connectingToDevice := false, stopEventSet := false, nextToken := 0 }

/-- Models `add_device` (lines 89-93): `self._devices.append(device)`. -/
def addDevice (d : Device) (s : ManagerState) : ManagerState :=
  { s with devices := s.devices ++ [d] }

/-- Models `remove_device` (lines 95-99): `self._devices.remove(device)`.
Python's `list.remove` deletes the first occurrence equal to the argument and
raises `ValueError` when the element is absent, leaving the list unchanged.
The second component is the raised error, if any. -/
def removeDeviceFn (d : Device) (s : ManagerState) : ManagerState × Option String :=
  if d ∈ s.devices then ({ s with devices := s.devices.erase d }, none)
  else (s, some "ValueError")

/-- Models `_get_device_by_mxid` (lines 173-181): first registry entry with the
given mxid, else `None`. -/
def getDeviceByMxid (devices : List Device) (mxid : String) : Option Device :=
  devices.find? (fun d => d.mxid == mxid)

/-- The fresh handle built by `HubCamera(device_mxid=device.mxid)`
(line 151). -/
def mkHubCamera (d : Device) (tok : Nat) : HubCamera :=
  { deviceMxid := d.mxid, token := tok }

/-- Models `_connect_device` (lines 147-159).  Returns the new state, the event
trace, and the exception escaping the call, if any (`device._start` may
raise; nothing here catches it). -/
def connectDevice (env : Env) (d : Device) (s : ManagerState) :
    ManagerState × List Event × Option String :=
  let cam := mkHubCamera d s.nextToken
  let s1 := { s with nextToken := s.nextToken + 1 }
  match env.startResult d with
  | .raise msg => (s1, [], some msg)
  | .fail => (s1, [Event.cameraStop cam], none)
  | .ok =>
      ({ s1 with hubCameras := s1.hubCameras ++ [cam] },
       [Event.cameraStart cam, Event.connectCallback d cam, Event.poolInsert cam],
       none)

/-- The `for device in self._devices` body of `_connect` (lines 140-145).
`mxids` is the snapshot `[camera.device_mxid for camera in self._hub_cameras]`
computed once before the loop; it is *not* refreshed as cameras are appended.
An exception escaping `_connect_device` aborts the loop (there is no handler
in `_connect`), leaving `connecting_to_device` as it stands. -/
def connectLoop (env : Env) (mxids : List String) :
    List Device → ManagerState → List Event → ManagerState × List Event × Option String
  | [], s, evs => (s, evs, none)
  | d :: rest, s, evs =>
      if d.mxid ∈ mxids then connectLoop env mxids rest s evs
      else
        let s1 := { s with connectingToDevice := true }
        let r := connectDevice env d s1
        match r.2.2 with
        | some e => (r.1, evs ++ r.2.1, some e)
        | none => connectLoop env mxids rest { r.1 with connectingToDevice := false } (evs ++ r.2.1)

/-- One iteration of the `while self.running` loop of `_connect`
(lines 135-145): idle-wait when the pool and registry have equal length or a
connection is in flight, otherwise scan the registry against the snapshot of
pooled mxids. -/
def connectScan (env : Env) (s : ManagerState) : ManagerState × List Event × Option String :=
  if s.hubCameras.length = s.devices.length ∨ s.connectingToDevice = true then
    (s, [Event.waitEv], none)
  else
    connectLoop env (s.hubCameras.map (·.deviceMxid)) s.devices s []

/-- The state reached by one `_connect` iteration (exception or not: in
Python the mutations performed before a raise persist). -/
def connectStep (env : Env) (s : ManagerState) : ManagerState :=
  (connectScan env s).1

/-- Runs `n` successive `_connect` iterations, accumulating their event traces. -/
def scanIter (env : Env) : Nat → ManagerState → ManagerState × List Event
  | 0, s => (s, [])
  | n + 1, s =>
      let r1 := connectScan env s
      let r2 := scanIter env n r1.1
      (r2.1, r1.2.1 ++ r2.2)

/-- Models `_disconnect_camera` (lines 161-171): stop the camera, remove it from the
pool (first occurrence, Python `list.remove`), then look the device up by mxid
and invoke its disconnect callback when found. -/
def disconnectEvents (devices : List Device) (cam : HubCamera) : List Event :=
  match getDeviceByMxid devices cam.deviceMxid with
  | some d => [Event.cameraStop cam, Event.disconnectCallback d]
  | none => [Event.cameraStop cam]

/-- The `for camera in self._hub_cameras` loop of `_poll` (lines 124-127),
with Python's mutate-while-iterate semantics: the iterator keeps an index `i`
into the *current* list, reads `cams[i]`, and `_disconnect_camera` removes the
read element in place, shifting later elements down.  The loop ends when the
index runs off the current list.  `fuel` bounds the iteration count; since
the index grows by one per iteration and the list never grows, the loop makes
at most `cams.length` iterations, so `fuel = cams.length` (see `pollCycleFn`)
reproduces the loop exactly: if fuel runs out, the index bound has been
reached and the loop would have ended anyway. -/
def pollFor (env : Env) (devices : List Device) :
    Nat → Nat → List HubCamera → List HubCamera × List Event
  | 0, _, cams => (cams, [])
  | fuel + 1, i, cams =>
      match cams[i]? with
      | none => (cams, [])
      | some cam =>
          if env.pollResult cam then
            let r := pollFor env devices fuel (i + 1) cams
            (r.1, Event.pollCall cam :: r.2)
          else
            let r := pollFor env devices fuel (i + 1) (cams.erase cam)
            (r.1, Event.pollCall cam :: (disconnectEvents devices cam ++ r.2))

/-- One full pass of the `_poll` body over the pool (one poll cycle). -/
def pollCycleFn (env : Env) (devices : List Device) (cams : List HubCamera) :
    List HubCamera × List Event :=
  pollFor env devices cams.length 0 cams

/-- The state reached by one `_poll` iteration. -/
def pollStep (env : Env) (s : ManagerState) : ManagerState :=
  { s with hubCameras := (pollCycleFn env s.devices s.hubCameras).1 }

/-- The per-camera `try` body of `_report` (lines 107-115): gather the info
and stats reports, publish both; the first raising call is caught by the
`except Exception` handler, which logs and moves on to the next camera. -/
def reportCamera (env : Env) (cam : HubCamera) : List Event :=
  match env.infoReport cam with
  | .error e => [Event.logError cam.deviceMxid e]
  | .ok info =>
      match env.statsReport cam with
      | .error e => [Event.logError cam.deviceMxid e]
      | .ok stats =>
          match env.publishInfo info with
          | .error e => [Event.logError cam.deviceMxid e]
          | .ok _ =>
              match env.publishStats stats with
              | .error e => [Event.publishedInfo cam info, Event.logError cam.deviceMxid e]
              | .ok _ => [Event.publishedInfo cam info, Event.publishedStats cam stats]

/-- One full pass of the `for camera in self._hub_cameras` loop of `_report`
(lines 106-115).  `_report` never mutates the pool, so the iteration is a
plain traversal. -/
def reportCycle (env : Env) (cams : List HubCamera) : List Event :=
  cams.flatMap (reportCamera env)

/-- Returns `true` iff all four external calls of the `_report` body succeed for this
camera. -/
def reportOkB (env : Env) (cam : HubCamera) : Bool :=
  match env.infoReport cam with
  | .error _ => false
  | .ok info =>
      match env.statsReport cam with
      | .error _ => false
      | .ok stats =>
          match env.publishInfo info with
          | .error _ => false
          | .ok _ =>
              match env.publishStats stats with
              | .error _ => false
              | .ok _ => true

/-- The wrapper message built at line 76:
`Exception(f'Destroy all streams excepted with: {e}.')`. -/
def wrapStreamsMsg (e : String) : String :=
  "Destroy all streams excepted with: " ++ e ++ "."

/-- The wrapper message built at line 85:
`Exception(f'Device {camera.device_mxid}: could not exit with exception: {e}.')`. -/
def wrapExitMsg (cam : HubCamera) (e : String) : String :=
  "Device " ++ cam.deviceMxid ++ ": could not exit with exception: " ++ e ++ "."

/-- The `for camera in self._hub_cameras` teardown loop of `stop`
(lines 78-85): for every camera whose state is not `DISCONNECTED`, call the
raw `__exit__` hook; any exception is wrapped in a fresh `Exception` and
re-raised, aborting the loop.  On success the trace of performed exits is
returned. -/
def teardownAll (env : Env) : List HubCamera → Except String (List Event)
  | [] => .ok []
  | cam :: rest =>
      if env.cameraState cam ≠ DeviceState.disconnected then
        match env.exitResult cam with
        | .error e => .error (wrapExitMsg cam e)
        | .ok _ => (teardownAll env rest).map (fun evs => Event.cameraExit cam :: evs)
      else teardownAll env rest

/-- The teardown phase of `stop` after the thread joins (lines 73-85):
`destroy_all_streams` first (wrapped and re-raised on any exception), then
the per-camera teardown loop. -/
def stopTeardown (env : Env) (cams : List HubCamera) : Except String (List Event) :=
  match env.destroyStreams with
  | .error e => .error (wrapStreamsMsg e)
  | .ok _ => teardownAll env cams

/-- The gating loop of `start` (lines 44-51): `running` is set to `True`,
then `while self.running: if self._devices: break; self.stop_event.wait(5)`.
`regAt k` is the content of `self._devices` observed at the `k`-th check
(devices are added concurrently by `add_device`); checks are one polling
interval (5 s) apart.  Nothing in this phase (nor `stop`, which never writes
`running`) can make `self.running` false, so the loop exits only via the
`break`.  The result is the index of the check at which the three threads are
launched (lines 53-60), or `none` if the registry stays empty for all `fuel`
observed checks. -/
def startRun (regAt : Nat → List Device) : Nat → Nat → Option Nat
  | 0, _ => none
  | fuel + 1, k => if regAt k = [] then startRun regAt fuel (k + 1) else some k

/-- The effect of `start` on the shared state (line 44): `self.running = True`.
The gating loop and the thread launches mutate nothing else. -/
def startMark (s : ManagerState) : ManagerState :=
  { s with running := true }

/-- The only mutation `stop` (lines 62-87) performs on the shared flags:
`self.stop_event.set()` (line 67).  The thread joins and the teardown phase
write neither `running` nor `connecting_to_device` — in particular, no line
of `stop` (or of the whole module) ever sets `self.running = False`. -/
def stopSignal (s : ManagerState) : ManagerState :=
  { s with stopEventSet := true }

/-- The three loop threads launched by `start` (lines 53-60). -/
inductive ThreadId where
  | connectT
  | pollT
  | reportT
  deriving DecidableEq, Repr

/-- One iteration of one of the three loop bodies, guarded by its
`while self.running` test (`_report`'s body mutates no manager state).  When
`running` is false the loop has exited and the thread does nothing. -/
def threadStep (env : Env) : ThreadId → ManagerState → ManagerState
  | .connectT, s => if s.running then connectStep env s else s
  | .pollT, s => if s.running then pollStep env s else s
  | .reportT, s => s

/-- Run `n` loop iterations under an arbitrary interleaving `sched` of the
three threads. -/
def runSched (env : Env) (sched : Nat → ThreadId) : Nat → ManagerState → ManagerState
  | 0, s => s
  | n + 1, s => runSched env sched n (threadStep env (sched n) s)

/-- States reachable from a fresh manager by the public operations
`add_device`, `remove_device`, `start` and the internal `_connect` / `_poll`
iterations (the `_report` body mutates no state). -/
inductive ReachFull (env : Env) : ManagerState → Prop where
  | init : ReachFull env initialState
  | add (d : Device) {s} : ReachFull env s → ReachFull env (addDevice d s)
  | remove (d : Device) {s} : ReachFull env s → ReachFull env (removeDeviceFn d s).1
  | startOp {s} : ReachFull env s → ReachFull env (startMark s)
  | connect {s} : ReachFull env s → ReachFull env (connectStep env s)
  | poll {s} : ReachFull env s → ReachFull env (pollStep env s)

/-- Reachability restricted to the operations under which the pool/registry
invariant actually holds: `remove_device` is not used, and every added device
carries an mxid distinct from all currently registered ones. -/
inductive ReachSafe (env : Env) : ManagerState → Prop where
  | init : ReachSafe env initialState
  | add (d : Device) {s} : ReachSafe env s → d.mxid ∉ s.devices.map Device.mxid →
      ReachSafe env (addDevice d s)
  | startOp {s} : ReachSafe env s → ReachSafe env (startMark s)
  | connect {s} : ReachSafe env s → ReachSafe env (connectStep env s)
  | poll {s} : ReachSafe env s → ReachSafe env (pollStep env s)

/-- An environment in which every external call succeeds. -/
def envOk : Env :=
  { startResult := fun _ => .ok
    pollResult := fun _ => true
    infoReport := fun _ => .ok "info"
    statsReport := fun _ => .ok "stats"
    publishInfo := fun _ => .ok ()
    publishStats := fun _ => .ok ()
    destroyStreams := .ok ()
    exitResult := fun _ => .ok ()
    cameraState := fun _ => .connected }

/-! ## Concrete fixtures used by witnesses and counterexamples -/

/-- A device with mxid `"a"`. -/
def devA : Device := { mxid := "a", tag := 0 }

/-- A second, distinct device object sharing mxid `"a"` with `devA`. -/
def devA' : Device := { mxid := "a", tag := 1 }

/-- A device with mxid `"b"`. -/
def devB : Device := { mxid := "b", tag := 2 }

/-- A handle for mxid `"a"`. -/
def camA : HubCamera := { deviceMxid := "a", token := 0 }

/-- A handle for mxid `"b"`. -/
def camB : HubCamera := { deviceMxid := "b", token := 1 }

/-! ## C10: remove_device -/

/-- C10: `remove_device` on a device absent from the registry raises
`ValueError` and leaves registry and pool unchanged; on a present device it
deletes exactly the first occurrence from the registry and never touches the
pool. -/
theorem remove_device_absent_raises_present_removes_first (d : Device) (s : ManagerState) :
    (d ∉ s.devices → removeDeviceFn d s = (s, some "ValueError")) ∧
    (d ∈ s.devices →
      removeDeviceFn d s = ({ s with devices := s.devices.erase d }, none) ∧
      (removeDeviceFn d s).1.hubCameras = s.hubCameras ∧
      (removeDeviceFn d s).1.devices.length + 1 = s.devices.length ∧
      (removeDeviceFn d s).1.devices.count d + 1 = s.devices.count d) := by
  constructor
  · intro h
    simp [removeDeviceFn, h]
  · intro h
    have hlen : (s.devices.erase d).length + 1 = s.devices.length := by
      rw [List.length_erase_of_mem h]
      have : 1 ≤ s.devices.length := List.length_pos.mpr (List.ne_nil_of_mem h)
      omega
    have hcnt : (s.devices.erase d).count d + 1 = s.devices.count d := by
      rw [List.count_erase_self]
      have : 0 < s.devices.count d := List.count_pos_iff.mpr h
      omega
    refine ⟨by simp [removeDeviceFn, h], by simp [removeDeviceFn, h], ?_, ?_⟩
    · simpa [removeDeviceFn, h] using hlen
    · simp [removeDeviceFn, h]

/-- Witness for C10 at concrete inputs: removing `devA` from an empty
registry raises; removing it right after adding it deletes it. -/
theorem remove_device_absent_raises_present_removes_first_witness :
    removeDeviceFn devA initialState = (initialState, some "ValueError") ∧
    removeDeviceFn devA (addDevice devA initialState) =
      ({ addDevice devA initialState with
          devices := (addDevice devA initialState).devices.erase devA }, none) := by
  refine ⟨(remove_device_absent_raises_present_removes_first devA initialState).1 (by decide),
    ((remove_device_absent_raises_present_removes_first devA
      (addDevice devA initialState)).2 (by decide)).1⟩

/-! ## C5: _connect_device -/

/-- C5: When `device._start` returns failure, `_connect_device` stops the
nascent handle at once (the trace is exactly one `cameraStop`), the pool is
unchanged (so the device's id never enters the pool from this attempt) and the
connect callback is never invoked; on success the trace is exactly
`hub_camera.start()`, then `connect_callback(hub_camera)`, then the pool
append, in that order. -/
theorem connect_device_failure_stops_success_ordered (env : Env) (d : Device) (s : ManagerState) :
    (env.startResult d = .fail →
      (connectDevice env d s).1.hubCameras = s.hubCameras ∧
      (connectDevice env d s).2.1 = [Event.cameraStop (mkHubCamera d s.nextToken)] ∧
      (connectDevice env d s).2.2 = none) ∧
    (env.startResult d = .ok →
      (connectDevice env d s).1.hubCameras = s.hubCameras ++ [mkHubCamera d s.nextToken] ∧
      (connectDevice env d s).2.1 =
        [Event.cameraStart (mkHubCamera d s.nextToken),
         Event.connectCallback d (mkHubCamera d s.nextToken),
         Event.poolInsert (mkHubCamera d s.nextToken)] ∧
      (connectDevice env d s).2.2 = none) := by
  constructor <;> intro h <;> simp [connectDevice, h]

/-- An environment whose start routine fails for mxid `"a"` and succeeds
otherwise. -/
def envC5 : Env :=
  { envOk with startResult := fun d => if d.mxid = "a" then .fail else .ok }

/-- Witness for C5: a failing attempt for `devA` and a successful one for
`devB`, from the fresh state. -/
theorem connect_device_failure_stops_success_ordered_witness :
    ((connectDevice envC5 devA initialState).1.hubCameras = initialState.hubCameras ∧
     (connectDevice envC5 devA initialState).2.1 =
       [Event.cameraStop (mkHubCamera devA initialState.nextToken)] ∧
     (connectDevice envC5 devA initialState).2.2 = none) ∧
    ((connectDevice envC5 devB initialState).1.hubCameras =
       initialState.hubCameras ++ [mkHubCamera devB initialState.nextToken] ∧
     (connectDevice envC5 devB initialState).2.1 =
       [Event.cameraStart (mkHubCamera devB initialState.nextToken),
        Event.connectCallback devB (mkHubCamera devB initialState.nextToken),
        Event.poolInsert (mkHubCamera devB initialState.nextToken)] ∧
     (connectDevice envC5 devB initialState).2.2 = none) :=
  ⟨(connect_device_failure_stops_success_ordered envC5 devA initialState).1 (by decide),
   (connect_device_failure_stops_success_ordered envC5 devB initialState).2 (by decide)⟩

/-! ## C8: the gating loop of start -/

/-- Characterization of `startRun` from an arbitrary check index: a launch happens only at a
check that observed a non-empty registry, with every earlier check in the
run having observed an empty one. -/
theorem startRun_launch_characterization (regAt : Nat → List Device) :
    ∀ fuel k0 k, startRun regAt fuel k0 = some k →
      k0 ≤ k ∧ regAt k ≠ [] ∧ ∀ i, k0 ≤ i → i < k → regAt i = [] := by
  intro fuel
  induction fuel with
  | zero => intro k0 k h; simp [startRun] at h
  | succ n ih =>
      intro k0 k h
      by_cases he : regAt k0 = []
      · have h' : startRun regAt n (k0 + 1) = some k := by
          simpa [startRun, he] using h
        obtain ⟨hle, hne, hall⟩ := ih (k0 + 1) k h'
        refine ⟨by omega, hne, ?_⟩
        intro i hi1 hi2
        rcases Nat.eq_or_lt_of_le hi1 with rfl | hlt
        · exact he
        · exact hall i hlt hi2
      · have hk : k = k0 := by
          have : some k0 = some k := by simpa [startRun, he] using h
          exact (Option.some_inj.mp this).symm
        subst hk
        exact ⟨le_rfl, he, fun i h1 h2 => absurd h1 (by omega)⟩

/-- The gate launches no later than the first check with a non-empty
registry, provided the fuel reaches that check. -/
theorem startRun_launches_by_first_nonempty (regAt : Nat → List Device) :
    ∀ fuel k0 j, k0 ≤ j → j < k0 + fuel → regAt j ≠ [] →
      ∃ k', k' ≤ j ∧ startRun regAt fuel k0 = some k' := by
  intro fuel
  induction fuel with
  | zero => intro k0 j h1 h2 _; omega
  | succ n ih =>
      intro k0 j h1 h2 hne
      by_cases he : regAt k0 = []
      · have hne0 : k0 ≠ j := fun h => hne (h ▸ he)
        obtain ⟨k', hk1, hk2⟩ := ih (k0 + 1) j (by omega) (by omega) hne
        exact ⟨k', hk1, by simpa [startRun, he] using hk2⟩
      · exact ⟨k0, h1, by simp [startRun, he]⟩

/-- C8: `start()` launches the three loops only after a registry check
that observed at least one device — every earlier 5-second check saw an empty
registry — and it launches at the *first* check observing a non-empty
registry, i.e. within one polling interval of the first device being added. -/
theorem start_gate_launches_at_first_nonempty (regAt : Nat → List Device)
    (fuel k j : Nat) :
    (startRun regAt fuel 0 = some k → regAt k ≠ [] ∧ ∀ i, i < k → regAt i = []) ∧
    (j < fuel → regAt j ≠ [] → ∃ k', k' ≤ j ∧ startRun regAt fuel 0 = some k') := by
  constructor
  · intro h
    obtain ⟨_, hne, hall⟩ := startRun_launch_characterization regAt fuel 0 k h
    exact ⟨hne, fun i hi => hall i (Nat.zero_le i) hi⟩
  · intro h1 h2
    exact startRun_launches_by_first_nonempty regAt fuel 0 j (Nat.zero_le j) (by omega) h2

/-- A registry history that is empty at checks 0 and 1 and holds `devA` from
check 2 on. -/
def regAtW (k : Nat) : List Device := if k < 2 then [] else [devA]

/-- Witness for C8: with history `regAtW`, the launch happens at check 2,
the first check observing a non-empty registry. -/
theorem start_gate_launches_at_first_nonempty_witness :
    (regAtW 2 ≠ [] ∧ ∀ i, i < 2 → regAtW i = []) ∧
    (∃ k', k' ≤ 3 ∧ startRun regAtW 5 0 = some k') :=
  ⟨(start_gate_launches_at_first_nonempty regAtW 5 2 3).1 (by decide),
   (start_gate_launches_at_first_nonempty regAtW 5 2 3).2 (by decide) (by decide)⟩

/-! ## C7: the teardown phase of stop -/

/-- If some pooled handle with a non-`DISCONNECTED` state fails its raw
teardown, the per-camera loop of `stop` raises a wrapped error built from
the first failing handle. -/
theorem teardownAll_error_of_failing (env : Env) :
    ∀ cams (cam : HubCamera), cam ∈ cams →
      env.cameraState cam ≠ DeviceState.disconnected →
      ∀ e, env.exitResult cam = .error e →
        ∃ cam' e', cam' ∈ cams ∧ env.cameraState cam' ≠ DeviceState.disconnected ∧
          env.exitResult cam' = .error e' ∧
          teardownAll env cams = .error (wrapExitMsg cam' e') := by
  intro cams
  induction cams with
  | nil => intro cam h; simp at h
  | cons c rest ih =>
      intro cam hmem hstate e herr
      by_cases hc : env.cameraState c ≠ DeviceState.disconnected
      · cases hex : env.exitResult c with
        | error e0 =>
            exact ⟨c, e0, List.mem_cons_self c rest, hc, hex, by simp [teardownAll, hc, hex]⟩
        | ok u =>
            rcases List.mem_cons.mp hmem with rfl | hrest
            · rw [herr] at hex; cases hex
            · obtain ⟨cam', e', h1, h2, h3, h4⟩ := ih cam hrest hstate e herr
              exact ⟨cam', e', List.mem_cons_of_mem _ h1, h2, h3,
                by simp [teardownAll, hc, hex, Except.map, h4]⟩
      · push_neg at hc
        rcases List.mem_cons.mp hmem with rfl | hrest
        · exact absurd hc hstate
        · obtain ⟨cam', e', h1, h2, h3, h4⟩ := ih cam hrest hstate e herr
          exact ⟨cam', e', List.mem_cons_of_mem _ h1, h2, h3, by simp [teardownAll, hc, h4]⟩

/-- C7: During `stop()`, an error from the global stream teardown is
wrapped and re-raised (never caught and logged), and so is an error from the
per-handle teardown of any pooled handle whose state is not `DISCONNECTED`
(the raised error is the wrapped error of the first such failing handle). -/
theorem stop_teardown_wraps_and_reraises (env : Env) (cams : List HubCamera) :
    (∀ e, env.destroyStreams = .error e →
      stopTeardown env cams = .error (wrapStreamsMsg e)) ∧
    (env.destroyStreams = .ok () →
      ∀ cam ∈ cams, env.cameraState cam ≠ DeviceState.disconnected →
        ∀ e, env.exitResult cam = .error e →
          ∃ cam' e', cam' ∈ cams ∧ env.cameraState cam' ≠ DeviceState.disconnected ∧
            env.exitResult cam' = .error e' ∧
            stopTeardown env cams = .error (wrapExitMsg cam' e')) := by
  constructor
  · intro e h
    simp [stopTeardown, h]
  · intro hok cam hmem hstate e herr
    obtain ⟨cam', e', h1, h2, h3, h4⟩ :=
      teardownAll_error_of_failing env cams cam hmem hstate e herr
    exact ⟨cam', e', h1, h2, h3, by simp [stopTeardown, hok, h4]⟩

/-- An environment whose global stream teardown raises. -/
def envC7a : Env := { envOk with destroyStreams := .error "streams boom" }

/-- An environment in which the raw teardown of handles with mxid `"a"`
raises. -/
def envC7b : Env :=
  { envOk with exitResult := fun c => if c.deviceMxid = "a" then .error "exit boom" else .ok () }

/-- Witness for C7: a failing stream teardown, and a failing per-handle
teardown for `camA` in the pool `[camB, camA]`. -/
theorem stop_teardown_wraps_and_reraises_witness :
    stopTeardown envC7a [camA] = .error (wrapStreamsMsg "streams boom") ∧
    (∃ cam' e', cam' ∈ [camB, camA] ∧ envC7b.cameraState cam' ≠ DeviceState.disconnected ∧
      envC7b.exitResult cam' = .error e' ∧
      stopTeardown envC7b [camB, camA] = .error (wrapExitMsg cam' e')) :=
  ⟨(stop_teardown_wraps_and_reraises envC7a [camA]).1 "streams boom" rfl,
   (stop_teardown_wraps_and_reraises envC7b [camB, camA]).2 rfl camA (by decide)
     (by decide) "exit boom" rfl⟩

/-! ## C6: per-handle error isolation in _report -/

/-- If any of the four external calls for one handle fails, that handle's
trace ends with the logged error: the `except` handler caught it and the
cycle moved on. -/
theorem reportCamera_failure_ends_with_log (env : Env) (cam : HubCamera)
    (h : reportOkB env cam = false) :
    ∃ e pre, reportCamera env cam = pre ++ [Event.logError cam.deviceMxid e] := by
  cases h1 : env.infoReport cam with
  | error e => exact ⟨e, [], by simp [reportCamera, h1]⟩
  | ok info =>
      cases h2 : env.statsReport cam with
      | error e => exact ⟨e, [], by simp [reportCamera, h1, h2]⟩
      | ok stats =>
          cases h3 : env.publishInfo info with
          | error e => exact ⟨e, [], by simp [reportCamera, h1, h2, h3]⟩
          | ok u =>
              cases h4 : env.publishStats stats with
              | error e =>
                  exact ⟨e, [Event.publishedInfo cam info],
                    by simp [reportCamera, h1, h2, h3, h4]⟩
              | ok u2 =>
                  exfalso
                  simp [reportOkB, h1, h2, h3, h4] at h

/-- If all four external calls succeed for a handle, the cycle publishes its
info and stats snapshots. -/
theorem reportCamera_ok_publishes (env : Env) (c : HubCamera)
    (h : reportOkB env c = true) :
    ∃ info stats, env.infoReport c = .ok info ∧ env.statsReport c = .ok stats ∧
      reportCamera env c = [Event.publishedInfo c info, Event.publishedStats c stats] := by
  cases h1 : env.infoReport c with
  | error e => exact absurd h (by simp [reportOkB, h1])
  | ok info =>
      cases h2 : env.statsReport c with
      | error e => exact absurd h (by simp [reportOkB, h1, h2])
      | ok stats =>
          cases h3 : env.publishInfo info with
          | error e => exact absurd h (by simp [reportOkB, h1, h2, h3])
          | ok u =>
              cases h4 : env.publishStats stats with
              | error e => exact absurd h (by simp [reportOkB, h1, h2, h3, h4])
              | ok u2 => exact ⟨info, stats, rfl, rfl, by simp [reportCamera, h1, h2, h3, h4]⟩

/-- C6: In one `_report` cycle, a handle for which gathering or
publishing raises has the error caught and logged (its per-handle trace ends
at the log), and every other handle whose calls succeed still has both its
snapshots gathered and forwarded in the same cycle. -/
theorem report_error_isolated_per_handle (env : Env) (cams : List HubCamera)
    (cam : HubCamera) (hmem : cam ∈ cams) (hfail : reportOkB env cam = false) :
    (∃ e pre, reportCamera env cam = pre ++ [Event.logError cam.deviceMxid e]) ∧
    (∃ e, Event.logError cam.deviceMxid e ∈ reportCycle env cams) ∧
    (∀ c ∈ cams, reportOkB env c = true →
      ∃ info stats, env.infoReport c = .ok info ∧ env.statsReport c = .ok stats ∧
        Event.publishedInfo c info ∈ reportCycle env cams ∧
        Event.publishedStats c stats ∈ reportCycle env cams) := by
  refine ⟨reportCamera_failure_ends_with_log env cam hfail, ?_, ?_⟩
  · obtain ⟨e, pre, hp⟩ := reportCamera_failure_ends_with_log env cam hfail
    exact ⟨e, List.mem_flatMap.mpr ⟨cam, hmem, by rw [hp]; simp⟩⟩
  · intro c hc hok
    obtain ⟨info, stats, h1, h2, h3⟩ := reportCamera_ok_publishes env c hok
    exact ⟨info, stats, h1, h2,
      List.mem_flatMap.mpr ⟨c, hc, by rw [h3]; simp⟩,
      List.mem_flatMap.mpr ⟨c, hc, by rw [h3]; simp⟩⟩

/-- An environment whose stats gathering raises for handles with mxid
`"a"`. -/
def envC6 : Env :=
  { envOk with statsReport := fun c => if c.deviceMxid = "a" then .error "stats boom" else .ok "stats" }

/-- Witness for C6: in the pool `[camA, camB]` with `camA`'s stats gathering
raising, the error is logged and `camB` is still fully reported. -/
theorem report_error_isolated_per_handle_witness :
    (∃ e pre, reportCamera envC6 camA = pre ++ [Event.logError camA.deviceMxid e]) ∧
    (∃ e, Event.logError camA.deviceMxid e ∈ reportCycle envC6 [camA, camB]) ∧
    (∀ c ∈ [camA, camB], reportOkB envC6 c = true →
      ∃ info stats, envC6.infoReport c = .ok info ∧ envC6.statsReport c = .ok stats ∧
        Event.publishedInfo c info ∈ reportCycle envC6 [camA, camB] ∧
        Event.publishedStats c stats ∈ reportCycle envC6 [camA, camB]) :=
  report_error_isolated_per_handle envC6 [camA, camB] camA (by decide) (by decide)

/-! ## C9: a raising start routine kills the supervisor -/

/-- With the `connecting_to_device` flag set, a `_connect` iteration only
idle-waits: the guard at line 136 short-circuits every scan. -/
theorem connectScan_flag_idles (env : Env) (s : ManagerState)
    (h : s.connectingToDevice = true) :
    connectScan env s = (s, [Event.waitEv], none) := by
  simp [connectScan, h]

/-- When the registry scan lets an exception escape (a raising
`device._start`), the final state still has `connecting_to_device = True`:
the reset at line 145 was skipped. -/
theorem connectLoop_error_flag (env : Env) (mxids : List String) :
    ∀ ds (s : ManagerState) evs e,
      (connectLoop env mxids ds s evs).2.2 = some e →
      (connectLoop env mxids ds s evs).1.connectingToDevice = true := by
  intro ds
  induction ds with
  | nil => intro s evs e h; simp [connectLoop] at h
  | cons d rest ih =>
      intro s evs e h
      by_cases hm : d.mxid ∈ mxids
      · rw [connectLoop] at h ⊢
        simp only [if_pos hm] at h ⊢
        exact ih s evs e h
      · cases hs : env.startResult d with
        | raise msg => simp [connectLoop, hm, connectDevice, hs]
        | fail =>
            rw [connectLoop] at h ⊢
            simp only [if_neg hm, connectDevice, hs] at h ⊢
            exact ih _ _ e h
        | ok =>
            rw [connectLoop] at h ⊢
            simp only [if_neg hm, connectDevice, hs] at h ⊢
            exact ih _ _ e h

/-- From any state with the flag set, every further `_connect` iteration
idle-waits: `n` scans leave the state untouched and only emit waits. -/
theorem scanIter_flag_idles (env : Env) :
    ∀ n (s : ManagerState), s.connectingToDevice = true →
      scanIter env n s = (s, List.replicate n Event.waitEv) := by
  intro n
  induction n with
  | zero => intro s h; simp [scanIter]
  | succ m ih =>
      intro s h
      simp [scanIter, connectScan_flag_idles env s h, ih s h, List.replicate_succ]

/-- C9: If `device._start` raises during a connection attempt, the
exception escapes the `_connect` scan (nothing in `_connect` catches it, so
it propagates out of the loop and the thread dies) and the
`connecting_to_device` flag is left set; consequently every subsequent scan —
under any external behavior — merely idle-waits and never attempts another
connection for any device. -/
theorem connect_raise_flag_blocks_scans (env : Env) (s : ManagerState) (e : String)
    (h : (connectScan env s).2.2 = some e) :
    (connectScan env s).1.connectingToDevice = true ∧
    ∀ (env2 : Env) (n : Nat),
      scanIter env2 n (connectScan env s).1 =
        ((connectScan env s).1, List.replicate n Event.waitEv) := by
  have hflag : (connectScan env s).1.connectingToDevice = true := by
    unfold connectScan at h ⊢
    by_cases hc : s.hubCameras.length = s.devices.length ∨ s.connectingToDevice = true
    · simp [hc] at h
    · simp only [if_neg hc] at h ⊢
      exact connectLoop_error_flag env _ _ _ _ _ h
  exact ⟨hflag, fun env2 n => scanIter_flag_idles env2 n _ hflag⟩

/-- An environment whose start routine always raises. -/
def envC9 : Env := { envOk with startResult := fun _ => .raise "start boom" }

/-- Witness for C9: one registered device whose start routine raises; the
scan leaves the flag set and two further scans only wait. -/
theorem connect_raise_flag_blocks_scans_witness :
    (connectScan envC9 (addDevice devA initialState)).1.connectingToDevice = true ∧
    scanIter envOk 2 (connectScan envC9 (addDevice devA initialState)).1 =
      ((connectScan envC9 (addDevice devA initialState)).1, List.replicate 2 Event.waitEv) := by
  have h := connect_raise_flag_blocks_scans envC9 (addDevice devA initialState)
    "start boom" (by decide)
  exact ⟨h.1, h.2 envOk 2⟩

/-! ## C1: stop never terminates the loops -/

/-- A registry scan never writes the `running` flag, the registry or the
stop event. -/
theorem connectLoop_preserves_control (env : Env) (mxids : List String) :
    ∀ ds (s : ManagerState) evs,
      (connectLoop env mxids ds s evs).1.running = s.running ∧
      (connectLoop env mxids ds s evs).1.devices = s.devices ∧
      (connectLoop env mxids ds s evs).1.stopEventSet = s.stopEventSet := by
  intro ds
  induction ds with
  | nil => intro s evs; simp [connectLoop]
  | cons d rest ih =>
      intro s evs
      by_cases hm : d.mxid ∈ mxids
      · rw [connectLoop]
        simp only [if_pos hm]
        exact ih s evs
      · cases hs : env.startResult d with
        | raise msg => simp [connectLoop, hm, connectDevice, hs]
        | fail =>
            rw [connectLoop]
            simp only [if_neg hm, connectDevice, hs]
            exact ih _ _
        | ok =>
            rw [connectLoop]
            simp only [if_neg hm, connectDevice, hs]
            exact ih _ _

/-- A `_connect` iteration never writes `running`. -/
theorem connectStep_running (env : Env) (s : ManagerState) :
    (connectStep env s).running = s.running := by
  unfold connectStep connectScan
  by_cases hc : s.hubCameras.length = s.devices.length ∨ s.connectingToDevice = true
  · simp [hc]
  · simp only [if_neg hc]
    exact (connectLoop_preserves_control env _ s.devices s []).1

/-- No loop body ever writes `running`. -/
theorem threadStep_running (env : Env) (t : ThreadId) (s : ManagerState) :
    (threadStep env t s).running = s.running := by
  cases t with
  | connectT =>
      by_cases h : s.running
      · simp [threadStep, h, connectStep_running]
      · simp [threadStep, h]
  | pollT =>
      by_cases h : s.running
      · simp [threadStep, h, pollStep]
      · simp [threadStep, h]
  | reportT => rfl

/-- The `running` flag is invariant under any interleaving of loop
iterations. -/
theorem runSched_running (env : Env) (sched : Nat → ThreadId) :
    ∀ n (s : ManagerState), (runSched env sched n s).running = s.running := by
  intro n
  induction n with
  | zero => intro s; rfl
  | succ m ih =>
      intro s
      rw [runSched, ih, threadStep_running]

/-- C1 fails on the code: The only mutation `stop()` performs on the
loops' shared control state is `stop_event.set()`; every loop's guard is
`while self.running`, and no statement of the module ever sets
`self.running = False`.  So after the cancellation signal, the guard of every
loop still evaluates to true after any number of iterations under any
interleaving: the loops never observe a terminating condition, no loop ever
exits, and the `join` calls in `stop()` block forever — contradicting the
claim that `stop()` leaves zero loops running. -/
theorem stop_signal_never_terminates_loops (env : Env) (sched : Nat → ThreadId)
    (s : ManagerState) (h : s.running = true) (n : Nat) :
    (runSched env sched n (stopSignal s)).running = true := by
  rw [runSched_running]
  simpa [stopSignal] using h

/-- Witness for C1's failing input: a started manager with one device; after
`stop_event.set()` and three poll-loop iterations the guard still holds. -/
theorem stop_signal_never_terminates_loops_witness :
    (startMark (addDevice devA initialState)).running = true ∧
    (runSched envOk (fun _ => ThreadId.pollT) 3
      (stopSignal (startMark (addDevice devA initialState)))).running = true :=
  ⟨rfl, stop_signal_never_terminates_loops envOk _ _ rfl 3⟩

/-! ## C4: the poll loop skips the handle after an evicted one -/

/-- An environment in which handles with mxid `"a"` fail their poll and all
other handles are healthy. -/
def envC4 : Env := { envOk with pollResult := fun c => !(c.deviceMxid == "a") }

/-- C4 fails on the code: With the pool `[camA, camB]` and `camA`
failing its poll, `_disconnect_camera` removes `camA` from the very list the
`for` statement is iterating; Python's iterator then finds its index past the
shortened list and ends the cycle, so the healthy `camB` — live at the start
of the cycle — is never polled in that cycle (it survives only because
nothing examined it). -/
theorem poll_cycle_skips_handle_after_eviction :
    camB ∈ [camA, camB] ∧
    Event.pollCall camA ∈ (pollCycleFn envC4 [] [camA, camB]).2 ∧
    Event.pollCall camB ∉ (pollCycleFn envC4 [] [camA, camB]).2 ∧
    (pollCycleFn envC4 [] [camA, camB]).1 = [camB] := by
  decide

/-! ## C2: the pool/registry invariant -/

/-- The claimed invariant: the pool is no larger than the registry and no
two pool entries share a device id. -/
def poolRegInvariant (s : ManagerState) : Prop :=
  s.hubCameras.length ≤ s.devices.length ∧
  (s.hubCameras.map HubCamera.deviceMxid).Nodup

/-- A state reachable by add `devA`, add `devA'` (same mxid, distinct
object), one `_connect` scan, then remove `devA`. -/
def badState : ManagerState :=
  (removeDeviceFn devA
    (connectStep envOk (addDevice devA' (addDevice devA initialState)))).1

/-- Counterexample to C2 as stated:  Registering two devices that share
an mxid makes one `_connect` scan pool both of them (the scan checks each
device against the mxid snapshot taken before the loop, which is never
refreshed), and `remove_device` shrinks the registry without touching the
pool; the resulting reachable state has more pool entries than registry
entries and two pool entries with the same device id. -/
theorem pool_invariant_counterexample :
    ReachFull envOk badState ∧ ¬ poolRegInvariant badState := by
  constructor
  · exact ReachFull.remove devA
      (ReachFull.connect (ReachFull.add devA' (ReachFull.add devA ReachFull.init)))
  · unfold poolRegInvariant badState
    decide

/-- One unfolding step of the scan loop: a device whose mxid is in the
snapshot is skipped. -/
theorem connectLoop_cons_skip (env : Env) (mxids : List String) (d : Device)
    (rest : List Device) (s : ManagerState) (evs : List Event) (hm : d.mxid ∈ mxids) :
    connectLoop env mxids (d :: rest) s evs = connectLoop env mxids rest s evs := by
  rw [connectLoop]
  simp [hm]

/-- One unfolding step of the scan loop: a raising start routine ends the
loop with the exception and the flag left set. -/
theorem connectLoop_cons_raise (env : Env) (mxids : List String) (d : Device)
    (rest : List Device) (s : ManagerState) (evs : List Event) (hm : d.mxid ∉ mxids)
    (msg : String) (hs : env.startResult d = .raise msg) :
    connectLoop env mxids (d :: rest) s evs =
      ({ s with connectingToDevice := true, nextToken := s.nextToken + 1 },
       evs, some msg) := by
  rw [connectLoop]
  simp [hm, connectDevice, hs]

/-- One unfolding step of the scan loop: a failing start routine leaves the
pool alone and moves to the next device. -/
theorem connectLoop_cons_fail (env : Env) (mxids : List String) (d : Device)
    (rest : List Device) (s : ManagerState) (evs : List Event) (hm : d.mxid ∉ mxids)
    (hs : env.startResult d = .fail) :
    connectLoop env mxids (d :: rest) s evs =
      connectLoop env mxids rest
        { s with connectingToDevice := false, nextToken := s.nextToken + 1 }
        (evs ++ [Event.cameraStop (mkHubCamera d s.nextToken)]) := by
  rw [connectLoop]
  simp [hm, connectDevice, hs]

/-- One unfolding step of the scan loop: a successful start routine appends
the fresh handle to the pool and moves to the next device. -/
theorem connectLoop_cons_ok (env : Env) (mxids : List String) (d : Device)
    (rest : List Device) (s : ManagerState) (evs : List Event) (hm : d.mxid ∉ mxids)
    (hs : env.startResult d = .ok) :
    connectLoop env mxids (d :: rest) s evs =
      connectLoop env mxids rest
        { s with hubCameras := s.hubCameras ++ [mkHubCamera d s.nextToken],
                 connectingToDevice := false, nextToken := s.nextToken + 1 }
        (evs ++ [Event.cameraStart (mkHubCamera d s.nextToken),
                 Event.connectCallback d (mkHubCamera d s.nextToken),
                 Event.poolInsert (mkHubCamera d s.nextToken)]) := by
  rw [connectLoop]
  simp [hm, connectDevice, hs]

/-- Structure of one scan: the pool only grows, by handles whose mxids are
drawn (in order, possibly with omissions) from the scanned devices and all
lie outside the snapshot. -/
theorem connectLoop_cams_structure (env : Env) (mxids : List String) :
    ∀ ds (s : ManagerState) evs, ∃ extra,
      (connectLoop env mxids ds s evs).1.hubCameras = s.hubCameras ++ extra ∧
      List.Sublist (extra.map HubCamera.deviceMxid) (ds.map Device.mxid) ∧
      ∀ m ∈ extra.map HubCamera.deviceMxid, m ∉ mxids := by
  intro ds
  induction ds with
  | nil =>
      intro s evs
      exact ⟨[], by simp [connectLoop], by simp, by simp⟩
  | cons d rest ih =>
      intro s evs
      by_cases hm : d.mxid ∈ mxids
      · obtain ⟨extra, h1, h2, h3⟩ := ih s evs
        exact ⟨extra, by rw [connectLoop_cons_skip env mxids d rest s evs hm]; exact h1,
          h2.cons d.mxid, h3⟩
      · cases hs : env.startResult d with
        | raise msg =>
            refine ⟨[], ?_, by simp, by simp⟩
            rw [connectLoop_cons_raise env mxids d rest s evs hm msg hs]
            simp
        | fail =>
            obtain ⟨extra, h1, h2, h3⟩ :=
              ih { s with connectingToDevice := false, nextToken := s.nextToken + 1 }
                (evs ++ [Event.cameraStop (mkHubCamera d s.nextToken)])
            exact ⟨extra, by rw [connectLoop_cons_fail env mxids d rest s evs hm hs]; exact h1,
              h2.cons d.mxid, h3⟩
        | ok =>
            obtain ⟨extra, h1, h2, h3⟩ := ih
              { s with hubCameras := s.hubCameras ++ [mkHubCamera d s.nextToken],
                       connectingToDevice := false, nextToken := s.nextToken + 1 }
              (evs ++ [Event.cameraStart (mkHubCamera d s.nextToken),
                       Event.connectCallback d (mkHubCamera d s.nextToken),
                       Event.poolInsert (mkHubCamera d s.nextToken)])
            refine ⟨mkHubCamera d s.nextToken :: extra, ?_, ?_, ?_⟩
            · rw [connectLoop_cons_ok env mxids d rest s evs hm hs, h1]
              simp
            · simpa [mkHubCamera] using h2.cons₂ d.mxid
            · intro m hmm
              rcases List.mem_cons.mp hmm with rfl | hmm
              · simpa [mkHubCamera] using hm
              · exact h3 m hmm

/-- A poll cycle only ever removes cameras: the resulting pool is a sublist
of the one it started from. -/
theorem pollFor_sublist (env : Env) (devices : List Device) :
    ∀ fuel i cams, List.Sublist (pollFor env devices fuel i cams).1 cams := by
  intro fuel
  induction fuel with
  | zero => intro i cams; simp [pollFor]
  | succ n ih =>
      intro i cams
      cases h : cams[i]? with
      | none => simp [pollFor, h]
      | some cam =>
          by_cases hp : env.pollResult cam
          · simpa [pollFor, h, hp] using ih (i + 1) cams
          · have := (ih (i + 1) (cams.erase cam)).trans (List.erase_sublist cam cams)
            simpa [pollFor, h, hp] using this

/-- The inductive strengthening of the pool/registry invariant: pool mxids
are distinct, drawn from the registry, and registry mxids are distinct. -/
def poolRegStrong (s : ManagerState) : Prop :=
  (s.hubCameras.map HubCamera.deviceMxid).Nodup ∧
  (∀ m ∈ s.hubCameras.map HubCamera.deviceMxid, m ∈ s.devices.map Device.mxid) ∧
  (s.devices.map Device.mxid).Nodup

/-- One `_connect` iteration preserves the strengthened invariant. -/
theorem connectStep_preserves_strong (env : Env) (s : ManagerState)
    (h : poolRegStrong s) : poolRegStrong (connectStep env s) := by
  obtain ⟨hnodup, hsub, hreg⟩ := h
  unfold connectStep connectScan
  by_cases hc : s.hubCameras.length = s.devices.length ∨ s.connectingToDevice = true
  · simp only [if_pos hc]
    exact ⟨hnodup, hsub, hreg⟩
  · simp only [if_neg hc]
    obtain ⟨extra, h1, h2, h3⟩ :=
      connectLoop_cams_structure env (s.hubCameras.map (·.deviceMxid)) s.devices s []
    have hdev :
        (connectLoop env (s.hubCameras.map (·.deviceMxid)) s.devices s []).1.devices =
          s.devices :=
      (connectLoop_preserves_control env _ s.devices s []).2.1
    refine ⟨?_, ?_, ?_⟩
    · rw [h1, List.map_append, List.nodup_append]
      exact ⟨hnodup, h2.nodup hreg, fun a ha hb => h3 a hb ha⟩
    · intro m hm
      rw [hdev]
      rw [h1, List.map_append] at hm
      rcases List.mem_append.mp hm with hm1 | hm2
      · exact hsub m hm1
      · exact h2.subset hm2
    · rw [hdev]
      exact hreg

/-- One `_poll` iteration preserves the strengthened invariant. -/
theorem pollStep_preserves_strong (env : Env) (s : ManagerState)
    (h : poolRegStrong s) : poolRegStrong (pollStep env s) := by
  obtain ⟨hnodup, hsub, hreg⟩ := h
  have hs : List.Sublist (pollCycleFn env s.devices s.hubCameras).1 s.hubCameras :=
    pollFor_sublist env s.devices s.hubCameras.length 0 s.hubCameras
  have hmap := hs.map HubCamera.deviceMxid
  exact ⟨hmap.nodup hnodup, fun m hm => hsub m (hmap.subset hm), hreg⟩

/-- Every state reachable without `remove_device` and with fresh-mxid adds
satisfies the strengthened invariant. -/
theorem poolRegStrong_of_reachSafe (env : Env) (s : ManagerState)
    (h : ReachSafe env s) : poolRegStrong s := by
  induction h with
  | init => exact ⟨List.nodup_nil, by simp [initialState], List.nodup_nil⟩
  | add d hr hfresh ih =>
      obtain ⟨hnodup, hsub, hreg⟩ := ih
      refine ⟨hnodup, ?_, ?_⟩
      · intro m hm
        simp only [addDevice, List.map_append]
        exact List.mem_append_left _ (hsub m hm)
      · simp only [addDevice, List.map_append, List.nodup_append]
        refine ⟨hreg, List.nodup_singleton _, ?_⟩
        intro a ha hb
        have haeq : a = d.mxid := by simpa using hb
        subst haeq
        exact hfresh ha
  | startOp hr ih => exact ih
  | connect hr ih => exact connectStep_preserves_strong env _ ih
  | poll hr ih => exact pollStep_preserves_strong env _ ih

/-- C2 (amended): In every state reachable by `add_device` restricted to
devices whose mxid differs from all currently registered mxids, `start`, and
the internal connect/poll steps — with `remove_device` not used — the pool
has at most as many entries as the registry and no two pool entries share a
device id.  (As stated over the full operation set the claim is false: see
the counterexample.) -/
theorem pool_invariant_of_safe_reach (env : Env) (s : ManagerState)
    (h : ReachSafe env s) : poolRegInvariant s := by
  obtain ⟨hnodup, hsub, hreg⟩ := poolRegStrong_of_reachSafe env s h
  refine ⟨?_, hnodup⟩
  have hsp : List.Subperm (s.hubCameras.map HubCamera.deviceMxid)
      (s.devices.map Device.mxid) :=
    List.subperm_of_subset hnodup hsub
  simpa using hsp.length_le

/-- Witness for C2's amended claim: the state after adding `devA` and
running one `_connect` scan (pool `[⟨"a", 0⟩]`, registry `[devA]`). -/
theorem pool_invariant_of_safe_reach_witness :
    poolRegInvariant (connectStep envOk (addDevice devA initialState)) :=
  pool_invariant_of_safe_reach envOk _
    (ReachSafe.connect (ReachSafe.add devA ReachSafe.init (by decide)))

/-! ## C3: poll failure evicts and notifies exactly once -/

/-- A found device carries the queried mxid. -/
theorem getDeviceByMxid_mxid (devices : List Device) (m : String) (d : Device)
    (h : getDeviceByMxid devices m = some d) : d.mxid = m := by
  unfold getDeviceByMxid at h
  have := List.find?_some h
  simpa using this

/-- Evicting a handle always records its stop. -/
theorem cameraStop_mem_disconnectEvents (devices : List Device) (cam0 : HubCamera) :
    Event.cameraStop cam0 ∈ disconnectEvents devices cam0 := by
  unfold disconnectEvents
  cases getDeviceByMxid devices cam0.deviceMxid <;> simp

/-- An eviction never records a poll call. -/
theorem pollCall_not_mem_disconnectEvents (devices : List Device) (cam0 c : HubCamera) :
    Event.pollCall c ∉ disconnectEvents devices cam0 := by
  unfold disconnectEvents
  cases getDeviceByMxid devices cam0.deviceMxid <;> simp

/-- The only disconnect callback an eviction can record is the one for the
device found by the evicted handle's mxid. -/
theorem disconnectCallback_mem_disconnectEvents (devices : List Device)
    (cam0 : HubCamera) (d : Device)
    (h : Event.disconnectCallback d ∈ disconnectEvents devices cam0) :
    getDeviceByMxid devices cam0.deviceMxid = some d := by
  unfold disconnectEvents at h
  cases hd : getDeviceByMxid devices cam0.deviceMxid with
  | none => rw [hd] at h; simp at h
  | some d0 =>
      rw [hd] at h
      simp at h
      rw [h]

/-- Count of a given disconnect callback in one eviction's trace. -/
theorem count_disconnectCallback_disconnectEvents (devices : List Device)
    (cam0 : HubCamera) (d : Device) :
    (disconnectEvents devices cam0).count (Event.disconnectCallback d) =
      if getDeviceByMxid devices cam0.deviceMxid = some d then 1 else 0 := by
  unfold disconnectEvents
  cases hd : getDeviceByMxid devices cam0.deviceMxid with
  | none => simp
  | some d0 =>
      by_cases h : d0 = d
      · subst h; simp [List.count_cons]
      · simp [List.count_cons, h, Ne.symm h]

/-- The camera read at an index belongs to the list. -/
theorem mem_of_getElem_opt {α : Type} {l : List α} {i : Nat} {a : α}
    (h : l[i]? = some a) : a ∈ l := by
  obtain ⟨hi, rfl⟩ := List.getElem?_eq_some.mp h
  exact List.getElem_mem hi

/-- A poll call recorded by the cycle concerns a camera of the list being
iterated. -/
theorem pollFor_pollCall_mem (env : Env) (devices : List Device) :
    ∀ fuel i cams (cam : HubCamera),
      Event.pollCall cam ∈ (pollFor env devices fuel i cams).2 → cam ∈ cams := by
  intro fuel
  induction fuel with
  | zero => intro i cams cam h; simp [pollFor] at h
  | succ n ih =>
      intro i cams cam h
      cases hg : cams[i]? with
      | none => simp [pollFor, hg] at h
      | some cam0 =>
          have hmem0 : cam0 ∈ cams := mem_of_getElem_opt hg
          by_cases hp : env.pollResult cam0
          · simp only [pollFor, hg, if_pos hp, List.mem_cons] at h
            rcases h with heq | hrest
            · cases heq; exact hmem0
            · exact ih (i + 1) cams cam hrest
          · simp only [pollFor, hg, if_neg hp, List.mem_cons, List.mem_append] at h
            rcases h with heq | hdev | hrest
            · cases heq; exact hmem0
            · exact absurd hdev (pollCall_not_mem_disconnectEvents devices cam0 cam)
            · exact List.mem_of_mem_erase (ih (i + 1) (cams.erase cam0) cam hrest)

/-- No disconnect callback for mxid `m` can be recorded when no iterated
camera carries `m`. -/
theorem pollFor_no_callback_for_absent_mxid (env : Env) (devices : List Device) (m : String) :
    ∀ fuel i cams, (∀ c ∈ cams, c.deviceMxid ≠ m) →
      ∀ d : Device, d.mxid = m →
        Event.disconnectCallback d ∉ (pollFor env devices fuel i cams).2 := by
  intro fuel
  induction fuel with
  | zero => intro i cams _ d _ h; simp [pollFor] at h
  | succ n ih =>
      intro i cams hc d hd h
      cases hg : cams[i]? with
      | none => simp [pollFor, hg] at h
      | some cam0 =>
          have hmem0 : cam0 ∈ cams := mem_of_getElem_opt hg
          have hcs : ∀ c ∈ cams.erase cam0, c.deviceMxid ≠ m :=
            fun c hce => hc c (List.mem_of_mem_erase hce)
          by_cases hp : env.pollResult cam0
          · simp only [pollFor, hg, if_pos hp, List.mem_cons] at h
            rcases h with heq | hrest
            · cases heq
            · exact ih (i + 1) cams hc d hd hrest
          · simp only [pollFor, hg, if_neg hp, List.mem_cons, List.mem_append] at h
            rcases h with heq | hdev | hrest
            · cases heq
            · have hsome := disconnectCallback_mem_disconnectEvents devices cam0 d hdev
              have hdm := getDeviceByMxid_mxid devices cam0.deviceMxid d hsome
              exact hc cam0 hmem0 (by rw [← hdm]; exact hd)
            · exact ih (i + 1) (cams.erase cam0) hcs d hd hrest

/-- Core analysis of one poll cycle, generalized over the iterator index: a
handle polled and failing in the cycle is absent from the resulting pool,
its stop is recorded, the disconnect callback of the device found under its
mxid is recorded exactly once, and on a registry miss no callback for its
mxid is recorded at all. -/
theorem pollFor_failure_eviction (env : Env) (devices : List Device) :
    ∀ fuel i cams, (cams.map HubCamera.deviceMxid).Nodup →
      ∀ cam : HubCamera, env.pollResult cam = false →
        Event.pollCall cam ∈ (pollFor env devices fuel i cams).2 →
        cam ∉ (pollFor env devices fuel i cams).1 ∧
        Event.cameraStop cam ∈ (pollFor env devices fuel i cams).2 ∧
        (∀ d : Device, getDeviceByMxid devices cam.deviceMxid = some d →
          ((pollFor env devices fuel i cams).2).count (Event.disconnectCallback d) = 1) ∧
        (getDeviceByMxid devices cam.deviceMxid = none →
          ∀ d : Device, d.mxid = cam.deviceMxid →
            Event.disconnectCallback d ∉ (pollFor env devices fuel i cams).2) := by
  intro fuel
  induction fuel with
  | zero => intro i cams _ cam _ h; simp [pollFor] at h
  | succ n ih =>
      intro i cams hnodup cam hfail hmemtrace
      have hnodup_cams : cams.Nodup := List.Nodup.of_map _ hnodup
      cases hg : cams[i]? with
      | none => simp [pollFor, hg] at hmemtrace
      | some cam0 =>
          have hmem0 : cam0 ∈ cams := mem_of_getElem_opt hg
          by_cases hp : env.pollResult cam0
          · -- the head camera is healthy: the cycle recurses on the same list
            simp only [pollFor, hg, if_pos hp] at hmemtrace ⊢
            rcases List.mem_cons.mp hmemtrace with heq | hrest
            · cases heq
              simp [hp] at hfail
            · obtain ⟨ha, hb, hcnt, hnone⟩ := ih (i + 1) cams hnodup cam hfail hrest
              refine ⟨ha, List.mem_cons_of_mem _ hb, ?_, ?_⟩
              · intro d hd
                simp [List.count_cons, hcnt d hd]
              · intro hdnone d hd hmem
                rcases List.mem_cons.mp hmem with h2 | h2
                · cases h2
                · exact hnone hdnone d hd h2
          · -- the head camera fails its poll and is evicted
            simp only [pollFor, hg, if_neg hp] at hmemtrace ⊢
            by_cases hcc : cam = cam0
            · subst hcc
              have habs : ∀ c ∈ cams.erase cam, c.deviceMxid ≠ cam.deviceMxid := by
                intro c hce he
                have hcm := hnodup_cams.mem_erase_iff.mp hce
                exact hcm.1 (List.inj_on_of_nodup_map hnodup hcm.2 hmem0 he)
              refine ⟨?_, ?_, ?_, ?_⟩
              · intro hmem
                exact hnodup_cams.not_mem_erase
                  ((pollFor_sublist env devices n (i + 1) (cams.erase cam)).subset hmem)
              · exact List.mem_cons_of_mem _
                  (List.mem_append_left _ (cameraStop_mem_disconnectEvents devices cam))
              · intro d hd
                have hrest0 : Event.disconnectCallback d ∉
                    (pollFor env devices n (i + 1) (cams.erase cam)).2 :=
                  pollFor_no_callback_for_absent_mxid env devices cam.deviceMxid n (i + 1)
                    (cams.erase cam) habs d (getDeviceByMxid_mxid devices cam.deviceMxid d hd)
                simp [List.count_cons, List.count_append,
                  count_disconnectCallback_disconnectEvents, hd,
                  List.count_eq_zero.mpr hrest0]
              · intro hdnone d hd hmem
                rcases List.mem_cons.mp hmem with h2 | h2
                · cases h2
                · rcases List.mem_append.mp h2 with h3 | h3
                  · have hsome := disconnectCallback_mem_disconnectEvents devices cam d h3
                    rw [hdnone] at hsome
                    cases hsome
                  · exact pollFor_no_callback_for_absent_mxid env devices cam.deviceMxid
                      n (i + 1) (cams.erase cam) habs d hd h3
            · -- the failing camera of interest appears later in the cycle
              have hmemrest : Event.pollCall cam ∈
                  (pollFor env devices n (i + 1) (cams.erase cam0)).2 := by
                rcases List.mem_cons.mp hmemtrace with h2 | h2
                · cases h2; exact absurd rfl hcc
                · rcases List.mem_append.mp h2 with h3 | h3
                  · exact absurd h3 (pollCall_not_mem_disconnectEvents devices cam0 cam)
                  · exact h3
              have hmemcam : cam ∈ cams.erase cam0 :=
                pollFor_pollCall_mem env devices n (i + 1) (cams.erase cam0) cam hmemrest
              have hnodup' : ((cams.erase cam0).map HubCamera.deviceMxid).Nodup :=
                ((List.erase_sublist cam0 cams).map HubCamera.deviceMxid).nodup hnodup
              obtain ⟨ha, hb, hcnt, hnone⟩ :=
                ih (i + 1) (cams.erase cam0) hnodup' cam hfail hmemrest
              have hmxne : cam.deviceMxid ≠ cam0.deviceMxid := by
                intro he
                exact hcc (List.inj_on_of_nodup_map hnodup
                  (List.mem_of_mem_erase hmemcam) hmem0 he)
              refine ⟨ha, List.mem_cons_of_mem _ (List.mem_append_right _ hb), ?_, ?_⟩
              · intro d hd
                have hdev0 : ¬ getDeviceByMxid devices cam0.deviceMxid = some d := by
                  intro hsome
                  have h1 := getDeviceByMxid_mxid devices cam.deviceMxid d hd
                  have h2 := getDeviceByMxid_mxid devices cam0.deviceMxid d hsome
                  exact hmxne (h1.symm.trans h2)
                simp [List.count_cons, List.count_append,
                  count_disconnectCallback_disconnectEvents, hdev0, hcnt d hd]
              · intro hdnone d hd hmem
                rcases List.mem_cons.mp hmem with h2 | h2
                · cases h2
                · rcases List.mem_append.mp h2 with h3 | h3
                  · have hsome := disconnectCallback_mem_disconnectEvents devices cam0 d h3
                    have h2m := getDeviceByMxid_mxid devices cam0.deviceMxid d hsome
                    exact hmxne (hd.symm.trans h2m)
                  · exact hnone hdnone d hd h3

/-- C3: In a poll cycle over a pool with distinct device ids (the spec's
pool shape), every handle whose poll is invoked in the cycle and reports
failure is stopped and removed from the pool within that cycle, and the
disconnect callback of the device found in the registry under its mxid is
invoked exactly once — while a registry miss still evicts the handle and
invokes no callback for its mxid at all. -/
theorem poll_failure_evicts_and_notifies_once (env : Env) (devices : List Device)
    (cams : List HubCamera) (cam : HubCamera)
    (hnodup : (cams.map HubCamera.deviceMxid).Nodup)
    (hfail : env.pollResult cam = false)
    (hpolled : Event.pollCall cam ∈ (pollCycleFn env devices cams).2) :
    cam ∉ (pollCycleFn env devices cams).1 ∧
    Event.cameraStop cam ∈ (pollCycleFn env devices cams).2 ∧
    (∀ d : Device, getDeviceByMxid devices cam.deviceMxid = some d →
      ((pollCycleFn env devices cams).2).count (Event.disconnectCallback d) = 1) ∧
    (getDeviceByMxid devices cam.deviceMxid = none →
      ∀ d : Device, d.mxid = cam.deviceMxid →
        Event.disconnectCallback d ∉ (pollCycleFn env devices cams).2) :=
  pollFor_failure_eviction env devices cams.length 0 cams hnodup cam hfail hpolled

/-- Witness for C3: pool `[camA, camB]`, registry `[devA, devB]`, `camA`
failing its poll — it is evicted, stopped, and `devA`'s disconnect callback
fires exactly once. -/
theorem poll_failure_evicts_and_notifies_once_witness :
    camA ∉ (pollCycleFn envC4 [devA, devB] [camA, camB]).1 ∧
    Event.cameraStop camA ∈ (pollCycleFn envC4 [devA, devB] [camA, camB]).2 ∧
    ((pollCycleFn envC4 [devA, devB] [camA, camB]).2).count
      (Event.disconnectCallback devA) = 1 := by
  have h := poll_failure_evicts_and_notifies_once envC4 [devA, devB] [camA, camB] camA
    (by decide) (by decide) (by decide)
  exact ⟨h.1, h.2.1, h.2.2.1 devA (by decide)⟩

end RobotHubDepthAI
